import Mathlib

set_option maxRecDepth 8000

/-!
Verification development for the ES9018K2M Volumio DAC-control plugin.

The repository contains two revisions of the controller: the event-driven
revision (called part_000 below: socket push feed, seek intercept with a
synchronous pre-mute, restricted-range volume curve) and the older revision in
src/index.js (plain socket feed, full-range linear volume curve).  Both share
the register-shadow model (reg7, reg12, reg21), the balance logic and the
filter setters.  The definitions below are direct translations of those
functions; controller state is passed explicitly and bus writes are returned
as explicit operation lists instead of being performed.
-/

namespace ES9018K2M

/-- JS Math.round applied to the exact rational num / den (den positive): the
closest integer with ties toward positive infinity, which is the floor of
num / den + 1 / 2, computed here with flooring integer division. -/
def jsRound (num den : Int) : Int := Int.fdiv (2 * num + den) (2 * den)

/-- Number of significand bits beyond 53 of a natural number below 2 ^ 60;
on that range this equals bit length minus 53 (and 0 when the value already
fits in 53 bits).  All products appearing in the volume map are below 2 ^ 60. -/
def excess53 (N : Nat) : Nat :=
  if N < 2 ^ 53 then 0
  else if N < 2 ^ 54 then 1
  else if N < 2 ^ 55 then 2
  else if N < 2 ^ 56 then 3
  else if N < 2 ^ 57 then 4
  else if N < 2 ^ 58 then 5
  else if N < 2 ^ 59 then 6
  else 7

/-- Round a nonnegative integer to at most 53 significant bits, ties to even:
the IEEE binary64 rounding step for integer-valued products below 2 ^ 60. -/
def roundSig53 (N : Nat) : Nat :=
  let s := excess53 N
  if s = 0 then N
  else
    let q := N / 2 ^ s
    let r := N % 2 ^ s
    let half := 2 ^ (s - 1)
    let q' := if half < r ∨ (r = half ∧ q % 2 = 1) then q + 1 else q
    q' * 2 ^ s

/-- Numerator of the binary64 value of the JS literal 2.55 at scale 2 ^ 51:
the double nearest to 2.55 is exactly 5742089524897382 / 2 ^ 51. -/
def dacStep255 : Nat := 5742089524897382

/-- Clamped volume used by setVolume in src/index.js:
Math.max(0, Math.min(100, vol)), as a natural number. -/
def clampVol (vol : Int) : Nat := (min 100 (max 0 vol)).toNat

/-- Attenuation computed by setVolume in src/index.js for a clamped volume
c in [0, 100]: Math.round((100 - c) * 2.55) evaluated in binary64, modelled
exactly: (100 - c) is an exact double, the product rounds once to 53
significant bits (ties to even), and Math.round takes the floor of the exact
value of that double plus one half. -/
def attLinearNat (c : Nat) : Nat :=
  (2 * roundSig53 ((100 - c) * dacStep255) + 2 ^ 51) / 2 ^ 52

/-- setVolume attenuation of src/index.js (full-range linear curve): the
volume is clamped to [0, 100] before the linear map to [0, 255]. -/
def attLinear (vol : Int) : Int := Int.ofNat (attLinearNat (clampVol vol))

/-- setVolume attenuation of the part_000 revision (restricted-range curve):
DAC_MIN_GAIN = 0x63 = 99, DAC_MUTE_GAIN = 0xFF = 255; vol ≤ 0 maps to 255,
otherwise Math.round(0x63 - vol * 0x63 / 100) = jsRound (9900 - 99 * vol) 100.
This expression is exact (binary64 evaluation cannot change the rounding: the
only tie on integer volumes, vol = 50 giving 49.5, is dyadic and exact).  Note
there is no clamp of vol above 100 in this revision. -/
def attRestricted (vol : Int) : Int :=
  if vol ≤ 0 then 255 else jsRound (9900 - 99 * vol) 100

/-- Per-channel byte written to register 15 (left) or 16 (right):
Math.min(255, attenuation + balance offset). -/
def channelByte (att bal : Int) : Int := min 255 (att + bal)

/-! Helper lemmas about the volume maps. -/

theorem jsRound_mono {num num' : Int} (den : Int) (hden : 0 < den)
    (h : num ≤ num') : jsRound num den ≤ jsRound num' den := by
  unfold jsRound
  rw [Int.fdiv_eq_ediv _ (by omega), Int.fdiv_eq_ediv _ (by omega)]
  exact Int.ediv_le_ediv (by omega) (by omega)

theorem attLinearNat_le (c : Nat) : attLinearNat c ≤ 255 := by
  by_cases h : c < 101
  · exact (by decide : ∀ x, x < 101 → attLinearNat x ≤ 255) c h
  · have h100 : 100 - c = 0 := by omega
    unfold attLinearNat
    rw [h100]
    decide

theorem attLinearNat_succ_le (c : Nat) : attLinearNat (c + 1) ≤ attLinearNat c := by
  by_cases h : c < 100
  · exact (by decide : ∀ x, x < 100 → attLinearNat (x + 1) ≤ attLinearNat x) c h
  · have h1 : 100 - (c + 1) = 0 := by omega
    have h2 : 100 - c = 0 := by omega
    unfold attLinearNat
    rw [h1, h2]

theorem attLinearNat_anti {m n : Nat} (h : m ≤ n) :
    attLinearNat n ≤ attLinearNat m :=
  antitone_nat_of_succ_le attLinearNat_succ_le h

theorem clampVol_mono {v1 v2 : Int} (h : v1 ≤ v2) : clampVol v1 ≤ clampVol v2 := by
  unfold clampVol
  omega

theorem clampVol_of_nonpos {v : Int} (h : v ≤ 0) : clampVol v = 0 := by
  unfold clampVol
  omega

theorem clampVol_of_ge {v : Int} (h : 100 ≤ v) : clampVol v = 100 := by
  unfold clampVol
  omega

theorem attLinear_nonneg (v : Int) : 0 ≤ attLinear v := by
  unfold attLinear
  exact Int.ofNat_nonneg _

theorem attLinear_le (v : Int) : attLinear v ≤ 255 := by
  unfold attLinear
  exact Int.ofNat_le.mpr (attLinearNat_le (clampVol v))

theorem attLinear_anti {v1 v2 : Int} (h : v1 ≤ v2) : attLinear v2 ≤ attLinear v1 := by
  unfold attLinear
  exact Int.ofNat_le.mpr (attLinearNat_anti (clampVol_mono h))

theorem attRestricted_bounds {v : Int} (h1 : 0 < v) (h2 : v ≤ 100) :
    0 ≤ attRestricted v ∧ attRestricted v ≤ 255 := by
  unfold attRestricted
  rw [if_neg (by omega)]
  constructor
  · have := jsRound_mono 100 (by omega) (show (0 : Int) ≤ 9900 - 99 * v by omega)
    calc (0 : Int) = jsRound 0 100 := by decide
    _ ≤ jsRound (9900 - 99 * v) 100 := this
  · have := jsRound_mono 100 (by omega) (show 9900 - 99 * v ≤ 9801 by omega)
    calc jsRound (9900 - 99 * v) 100 ≤ jsRound 9801 100 := this
    _ ≤ 255 := by decide

theorem attRestricted_anti {v1 v2 : Int} (h0 : 0 ≤ v1) (h12 : v1 ≤ v2)
    (h2 : v2 ≤ 100) : attRestricted v2 ≤ attRestricted v1 := by
  by_cases hv1 : v1 ≤ 0
  · have e1 : attRestricted v1 = 255 := by unfold attRestricted; rw [if_pos hv1]
    rw [e1]
    by_cases hv2 : v2 ≤ 0
    · unfold attRestricted; rw [if_pos hv2]
    · exact (attRestricted_bounds (by omega) h2).2
  · have h1 : 0 < v1 := by omega
    unfold attRestricted
    rw [if_neg (by omega), if_neg (by omega)]
    exact jsRound_mono 100 (by omega) (by omega)

theorem channelByte_mono {a a' : Int} (b : Int) (h : a ≤ a') :
    channelByte a b ≤ channelByte a' b := by
  unfold channelByte
  omega

/-! Claim C4. -/

/-- Claim C4 counterexample: the restricted-range setVolume (part_000) does
not clamp volumes above 100 before applying the attenuation formula.  At
volume 200 the computed attenuation is -99, which differs from the value at
volume 100 (which is 0) and lies outside [0, 255]. -/
theorem C4_counterexample :
    attRestricted 200 = -99 ∧ attRestricted 100 = 0 ∧ ¬(0 ≤ attRestricted 200) := by
  decide

/-- Claim C4 (amended): both curves map vol ≤ 0 to the designated
loudest-attenuation byte (255) without wrapping.  The full-range linear curve
of src/index.js clamps every volume above 100 to 100 before mapping and its
attenuation always lies in [0, 255].  The restricted-range curve of part_000
keeps attenuation in [0, 255] only for volumes in (0, 100]; it does not clamp
volumes above 100 (counterexample above). -/
theorem C4_amended (v : Int) :
    (v ≤ 0 → attRestricted v = 255 ∧ attLinear v = 255) ∧
    (0 < v → v ≤ 100 → 0 ≤ attRestricted v ∧ attRestricted v ≤ 255) ∧
    (100 < v → attLinear v = attLinear 100) ∧
    (0 ≤ attLinear v ∧ attLinear v ≤ 255) := by
  refine ⟨?_, ?_, ?_, attLinear_nonneg v, attLinear_le v⟩
  · intro h
    constructor
    · unfold attRestricted; rw [if_pos h]
    · unfold attLinear
      rw [clampVol_of_nonpos h]
      decide
  · intro h1 h2
    exact attRestricted_bounds h1 h2
  · intro h
    unfold attLinear
    rw [clampVol_of_ge (by omega), clampVol_of_ge (by omega)]

/-- Witness for C4 (amended), at volumes -3, 40 and 150. -/
theorem C4_amended_witness :
    ((-3 : Int) ≤ 0 ∧ (attRestricted (-3) = 255 ∧ attLinear (-3) = 255)) ∧
    (0 < (40 : Int) ∧ (40 : Int) ≤ 100 ∧
      (0 ≤ attRestricted 40 ∧ attRestricted 40 ≤ 255)) ∧
    (100 < (150 : Int) ∧ attLinear 150 = attLinear 100) :=
  ⟨⟨by decide, (C4_amended (-3)).1 (by decide)⟩,
   ⟨by decide, by decide, (C4_amended 40).2.1 (by decide) (by decide)⟩,
   ⟨by decide, (C4_amended 150).2.2.1 (by decide)⟩⟩

/-! Claim C5. -/

/-- Claim C5: for volumes v1 ≤ v2 in [0, 100], the attenuation computed by
setVolume at v2 is at most the attenuation at v1, for both the full-range
linear curve (src/index.js) and the restricted-range curve (part_000), and
likewise for the per-channel bytes at any fixed balance offset. -/
theorem C5_volume_monotone (v1 v2 b : Int) (h0 : 0 ≤ v1) (h12 : v1 ≤ v2)
    (h2 : v2 ≤ 100) :
    attRestricted v2 ≤ attRestricted v1 ∧ attLinear v2 ≤ attLinear v1 ∧
    channelByte (attRestricted v2) b ≤ channelByte (attRestricted v1) b ∧
    channelByte (attLinear v2) b ≤ channelByte (attLinear v1) b := by
  have hr := attRestricted_anti h0 h12 h2
  have hl := attLinear_anti h12
  exact ⟨hr, hl, channelByte_mono b hr, channelByte_mono b hl⟩

/-- Witness for C5, at volumes 20 ≤ 80 with balance offset 7. -/
theorem C5_volume_monotone_witness :
    (0 : Int) ≤ 20 ∧ (20 : Int) ≤ 80 ∧ (80 : Int) ≤ 100 ∧
    (attRestricted 80 ≤ attRestricted 20 ∧ attLinear 80 ≤ attLinear 20 ∧
      channelByte (attRestricted 80) 7 ≤ channelByte (attRestricted 20) 7 ∧
      channelByte (attLinear 80) 7 ≤ channelByte (attLinear 20) 7) :=
  ⟨by decide, by decide, by decide,
   C5_volume_monotone 20 80 7 (by decide) (by decide) (by decide)⟩

/-! Controller state. -/

/-- Mutable fields of ControllerES9018K2M relevant to the claims: register
shadows, balance offsets, de-duplication state, configuration and the socket
reconnection bookkeeping.  The persisted configuration value written by
config.set of the balance key is modelled by cfgBalance.  seekTimerPending
records whether the unmute timer armed by the seek intercept has not yet
fired; reconnectTimerPending records a non-null reconnectTimer. -/
structure Ctrl where
  reg7 : Nat
  reg12 : Nat
  reg21 : Nat
  lBal : Int
  rBal : Int
  lastVolume : Option Int
  lastStatus : Option String
  deviceFound : Bool
  seekMuteMs : Int
  cfgBalance : Int
  seekTimerPending : Bool
  reconnectAttempts : Nat
  reconnectTimerPending : Bool
deriving DecidableEq

/-- Controller state after construction and a successful device probe:
the constructor defaults (reg7 = 0x80, reg12 = 0x5A, reg21 = 0, balance
offsets zero, no remembered volume or status, seekMuteMs = 150, attempt
counter zero, no pending timers) with deviceFound set. -/
def startCtrl : Ctrl where
  reg7 := 0x80
  reg12 := 0x5A
  reg21 := 0x00
  lBal := 0
  rBal := 0
  lastVolume := none
  lastStatus := none
  deviceFound := true
  seekMuteMs := 150
  cfgBalance := 0
  seekTimerPending := false
  reconnectAttempts := 0
  reconnectTimerPending := false

/-! Claim C1: synchronous mute writes and the register shadow. -/

/-- Transport outcome oracle: whether the i2cset shell command issued for a
given register and value succeeds.  i2cWriteSync (part_000) runs the command
with execSync under a 100 ms timeout and returns false on error or timeout. -/
def i2cWriteSync (bus : Int → Int → Bool) (register value : Int) : Bool :=
  bus register value

/-- The reg7 bit-0 update performed by setMute and setMuteSync: muting sets
bit 0 (or with 0x01), unmuting clears it (and with 0xFE). -/
def applyMuteBit (mute : Bool) (r7 : Nat) : Nat :=
  if mute then r7 ||| 0x01 else r7 &&& 0xFE

/-- setMuteSync (part_000): the reg7 shadow is updated first, then the new
shadow value is written synchronously; the bus outcome is returned (the
source discards it) and never flows back into the state. -/
def setMuteSync (bus : Int → Int → Bool) (mute : Bool) (c : Ctrl) : Ctrl × Bool :=
  ({ c with reg7 := applyMuteBit mute c.reg7 },
   i2cWriteSync bus 7 (Int.ofNat (applyMuteBit mute c.reg7)))

/-- Claim C1 counterexample: with a bus on which every write fails, the mute
operation setMuteSync true still changes the reg7 shadow from its prior value
0x80 to 0x81 — the failed write updates the in-memory register model, against
the claimed invariant. -/
theorem C1_counterexample :
    (setMuteSync (fun _ _ => false) true startCtrl).2 = false ∧
    (setMuteSync (fun _ _ => false) true startCtrl).1.reg7 = 0x81 ∧
    startCtrl.reg7 = 0x80 := by
  decide

/-- Claim C1 (amended): a mute operation always updates the reg7 shadow to
the intended masked value before the write is attempted, and the resulting
state is independent of the bus outcome — after a failed write the shadow
holds the new value, not the value from before the operation.  The reg12 and
reg21 shadows are untouched by mute operations. -/
theorem C1_amended (bus bus' : Int → Int → Bool) (mute : Bool) (c : Ctrl) :
    (setMuteSync bus mute c).1 = (setMuteSync bus' mute c).1 ∧
    (setMuteSync bus mute c).1.reg7 = applyMuteBit mute c.reg7 ∧
    (setMuteSync bus mute c).1.reg12 = c.reg12 ∧
    (setMuteSync bus mute c).1.reg21 = c.reg21 :=
  ⟨rfl, rfl, rfl, rfl⟩

/-! Claim C9: balance clamping and mutual exclusivity. -/

/-- setBalance (part_000): zero both offsets, then store the positive side
clamped to at most 40 into lBal (respectively the negated negative side into
rBal), persist the raw unclamped argument to the configuration, and re-apply
the current volume (the re-applied channel writes do not touch these fields
and are not repeated here). -/
def setBalance (balance : Int) (c : Ctrl) : Ctrl :=
  if 0 < balance then
    { c with lBal := min balance 40, rBal := 0, cfgBalance := balance }
  else if balance < 0 then
    { c with lBal := 0, rBal := min (-balance) 40, cfgBalance := balance }
  else
    { c with lBal := 0, rBal := 0, cfgBalance := balance }

/-- Balance portion of loadConfig (part_000): zero both offsets, then copy
the persisted balance into lBal (if positive) or its negation into rBal (if
negative), with no clamping. -/
def loadConfigBalance (c : Ctrl) : Ctrl :=
  if 0 < c.cfgBalance then { c with lBal := c.cfgBalance, rBal := 0 }
  else if c.cfgBalance < 0 then { c with lBal := 0, rBal := -c.cfgBalance }
  else { c with lBal := 0, rBal := 0 }

/-- Claim C9 counterexample: setBalance 100 clamps the in-memory offset to 40
but persists the raw value 100; the next loadConfig copies 100 into lBal
unclamped, so after loadConfig the offset is not within [0, 40]. -/
theorem C9_counterexample :
    (setBalance 100 startCtrl).lBal = 40 ∧
    (loadConfigBalance (setBalance 100 startCtrl)).lBal = 100 ∧
    ¬((loadConfigBalance (setBalance 100 startCtrl)).lBal ≤ 40) := by
  decide

/-- Claim C9 (amended): after setBalance both offsets are within [0, 40] and
mutually exclusive, and the sequence +B, -B, 0 leaves both offsets at 0;
after loadConfig the offsets are nonnegative and mutually exclusive, but the
magnitude is copied from the persisted value without clamping (counterexample
above), so the [0, 40] bound holds only for setBalance. -/
theorem C9_amended (b : Int) (c : Ctrl) :
    (0 ≤ (setBalance b c).lBal ∧ (setBalance b c).lBal ≤ 40 ∧
     0 ≤ (setBalance b c).rBal ∧ (setBalance b c).rBal ≤ 40) ∧
    (0 < (setBalance b c).lBal → (setBalance b c).rBal = 0) ∧
    (0 < (setBalance b c).rBal → (setBalance b c).lBal = 0) ∧
    ((setBalance 0 (setBalance (-b) (setBalance b c))).lBal = 0 ∧
     (setBalance 0 (setBalance (-b) (setBalance b c))).rBal = 0) ∧
    (0 ≤ (loadConfigBalance c).lBal ∧ 0 ≤ (loadConfigBalance c).rBal) ∧
    (0 < (loadConfigBalance c).lBal → (loadConfigBalance c).rBal = 0) ∧
    (0 < (loadConfigBalance c).rBal → (loadConfigBalance c).lBal = 0) := by
  unfold setBalance loadConfigBalance
  split_ifs <;> simp_all <;> omega

/-- Witness for C9 (amended) at balances 25 and -25. -/
theorem C9_amended_witness :
    (0 ≤ (setBalance 25 startCtrl).lBal ∧ (setBalance 25 startCtrl).lBal ≤ 40 ∧
     0 ≤ (setBalance 25 startCtrl).rBal ∧ (setBalance 25 startCtrl).rBal ≤ 40) ∧
    (0 < (setBalance 25 startCtrl).lBal ∧ (setBalance 25 startCtrl).rBal = 0) ∧
    (0 < (setBalance (-25) startCtrl).rBal ∧ (setBalance (-25) startCtrl).lBal = 0) ∧
    ((setBalance 0 (setBalance (-25) (setBalance 25 startCtrl))).lBal = 0 ∧
     (setBalance 0 (setBalance (-25) (setBalance 25 startCtrl))).rBal = 0) :=
  ⟨(C9_amended 25 startCtrl).1,
   ⟨by decide, (C9_amended 25 startCtrl).2.1 (by decide)⟩,
   ⟨by decide, (C9_amended (-25) startCtrl).2.2.1 (by decide)⟩,
   (C9_amended 25 startCtrl).2.2.2.1⟩

/-! Claim C10: filter selection and the mute bit. -/

/-- setFirFilter register effect (identical in both revisions): clear reg7
bits 5 and 6 (mask 0x9F) and reg21 bit 0 (mask 0xFE), then set the bits of
the selected mode (0: slow roll-off, or 0x20; 1: fast roll-off, no bits; 2:
minimum phase, or 0x40; 3: oversampling bypass, reg21 or 0x01); any other
mode leaves the cleared registers. -/
def setFirFilterRegs (mode : Int) (r7 r21 : Nat) : Nat × Nat :=
  if mode = 0 then ((r7 &&& 0x9F) ||| 0x20, r21 &&& 0xFE)
  else if mode = 1 then (r7 &&& 0x9F, r21 &&& 0xFE)
  else if mode = 2 then ((r7 &&& 0x9F) ||| 0x40, r21 &&& 0xFE)
  else if mode = 3 then (r7 &&& 0x9F, (r21 &&& 0xFE) ||| 0x01)
  else (r7 &&& 0x9F, r21 &&& 0xFE)

/-- setIirFilter register effect (identical in both revisions): clear reg7
bits 2 and 3 (mask 0xF3) and reg21 bit 2 (mask 0xFB), then set the bits of
the selected mode (0: 47K, no bits; 1: 50K, or 0x04; 2: 60K, or 0x08; 3:
70K, or 0x0C; 4: bypass, reg21 or 0x04); any other mode leaves the cleared
registers. -/
def setIirFilterRegs (mode : Int) (r7 r21 : Nat) : Nat × Nat :=
  if mode = 0 then (r7 &&& 0xF3, r21 &&& 0xFB)
  else if mode = 1 then ((r7 &&& 0xF3) ||| 0x04, r21 &&& 0xFB)
  else if mode = 2 then ((r7 &&& 0xF3) ||| 0x08, r21 &&& 0xFB)
  else if mode = 3 then ((r7 &&& 0xF3) ||| 0x0C, r21 &&& 0xFB)
  else if mode = 4 then (r7 &&& 0xF3, (r21 &&& 0xFB) ||| 0x04)
  else (r7 &&& 0xF3, r21 &&& 0xFB)

theorem land_testBit_zero (r m : Nat) (hm : m.testBit 0 = true) :
    (r &&& m).testBit 0 = r.testBit 0 := by
  rw [Nat.testBit_land, hm, Bool.and_true]

theorem lor_testBit_zero (r m : Nat) (hm : m.testBit 0 = false) :
    (r ||| m).testBit 0 = r.testBit 0 := by
  rw [Nat.testBit_lor, hm, Bool.or_false]

theorem land_lor_testBit_zero (r a o : Nat) (ha : a.testBit 0 = true)
    (ho : o.testBit 0 = false) : ((r &&& a) ||| o).testBit 0 = r.testBit 0 := by
  rw [lor_testBit_zero _ _ ho, land_testBit_zero _ _ ha]

/-- Claim C10: for every filter mode and every starting reg7 and reg21
shadow, setFirFilter and setIirFilter leave bit 0 of reg7 (the mute bit)
unchanged: the masks 0x9F and 0xF3 keep bit 0 and none of the values they or
into reg7 (0x20, 0x40, 0x04, 0x08, 0x0C) touches bit 0, so a filter change
never mutes or unmutes the DAC. -/
theorem C10_filters_preserve_mute_bit (mode : Int) (r7 r21 : Nat) :
    (setFirFilterRegs mode r7 r21).1.testBit 0 = r7.testBit 0 ∧
    (setIirFilterRegs mode r7 r21).1.testBit 0 = r7.testBit 0 := by
  constructor
  · unfold setFirFilterRegs
    split_ifs <;>
      first
        | exact land_lor_testBit_zero _ _ _ (by decide) (by decide)
        | exact land_testBit_zero _ _ (by decide)
  · unfold setIirFilterRegs
    split_ifs <;>
      first
        | exact land_lor_testBit_zero _ _ _ (by decide) (by decide)
        | exact land_testBit_zero _ _ (by decide)

/-! Claim C6: reconnection backoff. -/

/-- scheduleReconnect (part_000): if a reconnect timer is already pending do
nothing; otherwise increment reconnectAttempts and schedule connectSocket
after min(1000 * 2 ^ (attempts - 1), 30000) ms.  The scheduled delay is
returned; the socketFailedSince / fallback-poller bookkeeping is orthogonal
to this claim and not repeated here. -/
def scheduleReconnect (c : Ctrl) : Ctrl × Option Nat :=
  if c.reconnectTimerPending then (c, none)
  else
    ({ c with reconnectAttempts := c.reconnectAttempts + 1,
              reconnectTimerPending := true },
     some (min (1000 * 2 ^ (c.reconnectAttempts + 1 - 1)) 30000))

/-- The scheduled reconnect timer fires: reconnectTimer is cleared and
connectSocket runs. -/
def reconnectTimerFires (c : Ctrl) : Ctrl := { c with reconnectTimerPending := false }

/-- One consecutive-failure cycle: the failure schedules a reconnect, the
timer later fires, and the next connection attempt fails again. -/
def failStep (c : Ctrl) : Ctrl := reconnectTimerFires (scheduleReconnect c).1

/-- Delay scheduled on the k-th consecutive failure (k counted from 1)
starting from the given state. -/
def nthReconnectDelay (c : Ctrl) (k : Nat) : Nat :=
  ((scheduleReconnect (failStep^[k - 1] c)).2).getD 0

/-- Delays scheduled for the first n consecutive failures. -/
def reconnectDelays (c : Ctrl) (n : Nat) : List Nat :=
  (List.range n).map (fun i => nthReconnectDelay c (i + 1))

theorem failStep_iterate (k : Nat) :
    (failStep^[k] startCtrl).reconnectAttempts = k ∧
    (failStep^[k] startCtrl).reconnectTimerPending = false := by
  induction k with
  | zero => exact ⟨rfl, rfl⟩
  | succ n ih =>
    rw [Function.iterate_succ_apply']
    simp [failStep, reconnectTimerFires, scheduleReconnect, ih.1, ih.2]

theorem nthReconnectDelay_eq (k : Nat) (hk : 1 ≤ k) :
    nthReconnectDelay startCtrl k = min (1000 * 2 ^ (k - 1)) 30000 := by
  unfold nthReconnectDelay scheduleReconnect
  have h := failStep_iterate (k - 1)
  rw [if_neg (by rw [h.2]; exact Bool.false_ne_true)]
  have he : k - 1 + 1 - 1 = k - 1 := by omega
  simp [h.1, he]

/-- Claim C6: starting from a connected state with the attempt counter at 0,
the reconnect delays scheduled for the first five consecutive failures are
exactly 1000, 2000, 4000, 8000 and 16000 ms, and every further consecutive
failure schedules exactly 30000 ms (the cap). -/
theorem C6_backoff :
    reconnectDelays startCtrl 5 = [1000, 2000, 4000, 8000, 16000] ∧
    ∀ k, 6 ≤ k → nthReconnectDelay startCtrl k = 30000 := by
  constructor
  · decide
  · intro k hk
    rw [nthReconnectDelay_eq k (by omega)]
    have h32 : (32 : Nat) ≤ 2 ^ (k - 1) := by
      calc (32 : Nat) = 2 ^ 5 := by decide
      _ ≤ 2 ^ (k - 1) := Nat.pow_le_pow_of_le_right (by decide) (by omega)
    have h30 : (30000 : Nat) ≤ 1000 * 2 ^ (k - 1) := by
      calc (30000 : Nat) ≤ 1000 * 32 := by decide
      _ ≤ 1000 * 2 ^ (k - 1) := Nat.mul_le_mul_left 1000 h32
    exact min_eq_right h30

/-- Witness for C6 at the sixth consecutive failure. -/
theorem C6_backoff_witness : 6 ≤ 6 ∧ nthReconnectDelay startCtrl 6 = 30000 :=
  ⟨by decide, C6_backoff.2 6 (by decide)⟩

/-! Claim C8: write throttling. -/

/-- Start time of the shell command run by i2cWrite (identical in both
revisions): a write issued at time now, when the lastI2cWrite field read at
issue time is lastWrite, has its callback scheduled after
Math.max(0, 30 - (now - lastWrite)) ms.  lastI2cWrite is only updated when
the command completes, so writes issued while another write is pending read
the completion time of an older write. -/
def i2cWriteStart (lastWrite now : Int) : Int := now + max 0 (30 - (now - lastWrite))

/-- Completion time of that write when the shell command takes dur ms; this
is also the value stored into lastI2cWrite at completion. -/
def i2cWriteEnd (lastWrite now dur : Int) : Int := i2cWriteStart lastWrite now + dur

/-- Claim C8 counterexample: two writes both issued at time 1000 with
lastI2cWrite still 0 (the second issued before the first's callback has run,
so both read the same stale lastI2cWrite).  Both start immediately: the
second starts at 1000, before the first ends at 1010 — two writes are in
flight at once and the 30 ms gap from the end of the earlier write fails. -/
theorem C8_counterexample :
    i2cWriteStart 0 1000 < i2cWriteEnd 0 1000 10 ∧
    ¬(i2cWriteEnd 0 1000 10 + 30 ≤ i2cWriteStart 0 1000) := by
  decide

/-- Claim C8 (amended): a write is delayed, never dropped (its start is not
before its issue time), and when the later write is issued after the earlier
write has completed — so that it reads the updated lastI2cWrite — its start
is exactly max(issue time, end of earlier write + 30), hence at least 30 ms
after the end of the earlier write.  The claimed spacing and mutual exclusion
do not hold for writes issued while the earlier write is still pending
(counterexample above). -/
theorem C8_amended (L t1 d1 t2 : Int) (hd : 0 ≤ d1)
    (h : i2cWriteEnd L t1 d1 ≤ t2) :
    i2cWriteStart (i2cWriteEnd L t1 d1) t2 = max t2 (i2cWriteEnd L t1 d1 + 30) ∧
    i2cWriteEnd L t1 d1 + 30 ≤ i2cWriteStart (i2cWriteEnd L t1 d1) t2 ∧
    t2 ≤ i2cWriteStart (i2cWriteEnd L t1 d1) t2 := by
  unfold i2cWriteEnd i2cWriteStart at *
  omega

/-- Witness for C8 (amended): first write issued at 100 with duration 5,
second write issued at 200 (after the first completed). -/
theorem C8_amended_witness :
    (0 : Int) ≤ 5 ∧ i2cWriteEnd 0 100 5 ≤ 200 ∧
    (i2cWriteStart (i2cWriteEnd 0 100 5) 200 = max 200 (i2cWriteEnd 0 100 5 + 30) ∧
     i2cWriteEnd 0 100 5 + 30 ≤ i2cWriteStart (i2cWriteEnd 0 100 5) 200 ∧
     (200 : Int) ≤ i2cWriteStart (i2cWriteEnd 0 100 5) 200) :=
  ⟨by decide, by decide, C8_amended 0 100 5 200 (by decide) (by decide)⟩

/-! Operations, engine states, and the two state-change handlers. -/

/-- A bus or engine operation executed by the controller, listed in execution
order: writeSync is a blocking i2cWriteSync call (completed before the next
entry starts), write is an asynchronous i2cWrite, forwardSeek is the call to
the saved original volumioSeek, and armUnmuteTimer is the setTimeout arming
the seek-unmute timer. -/
inductive Op where
  | writeSync : Int → Int → Op
  | write : Int → Int → Op
  | forwardSeek : Int → Op
  | armUnmuteTimer : Op
deriving DecidableEq

/-- Playback-engine state as delivered by pushState or volumioGetState: the
status string plus volume and mute fields, either of which may be absent. -/
structure PlayerState where
  status : String
  volume : Option Int
  mute : Option Bool
deriving DecidableEq

/-- setVolume of the part_000 revision (restricted curve): computes the
attenuation and issues the two asynchronous channel writes; it changes no
controller field. -/
def setVolumeOps (vol : Int) (c : Ctrl) : List Op :=
  [Op.write 15 (channelByte (attRestricted vol) c.lBal),
   Op.write 16 (channelByte (attRestricted vol) c.rBal)]

/-- setVolume of src/index.js (linear curve), likewise. -/
def setVolumeOpsIdx (vol : Int) (c : Ctrl) : List Op :=
  [Op.write 15 (channelByte (attLinear vol) c.lBal),
   Op.write 16 (channelByte (attLinear vol) c.rBal)]

/-- setMuteSync as invoked inside the part_000 handlers: the reg7 shadow
update together with the emitted synchronous register-7 write. -/
def setMuteSyncOp (mute : Bool) (c : Ctrl) : Ctrl × Op :=
  ({ c with reg7 := applyMuteBit mute c.reg7 },
   Op.writeSync 7 (Int.ofNat (applyMuteBit mute c.reg7)))

/-- setMute of src/index.js: the reg7 shadow update together with the
emitted asynchronous register-7 write. -/
def setMuteOp (mute : Bool) (c : Ctrl) : Ctrl × Op :=
  ({ c with reg7 := applyMuteBit mute c.reg7 },
   Op.write 7 (Int.ofNat (applyMuteBit mute c.reg7)))

/-- handleStateChange of the part_000 revision: nothing without a device; on
a status change, mute synchronously on play to stop/pause, unmute
synchronously on a change to play when the engine does not report mute, and
remember the status; then re-apply a changed numeric volume and remember it. -/
def handleStateChangeP0 (c : Ctrl) (s : PlayerState) : Ctrl × List Op :=
  if c.deviceFound = false then (c, [])
  else
    let p1 : Ctrl × List Op :=
      if c.lastStatus ≠ some s.status then
        let q : Ctrl × List Op :=
          if s.status = "stop" ∨ s.status = "pause" then
            if c.lastStatus = some "play" then
              ((setMuteSyncOp true c).1, [(setMuteSyncOp true c).2])
            else (c, [])
          else if s.status = "play" then
            if c.lastStatus ≠ some "play" ∧ s.mute.getD false = false then
              ((setMuteSyncOp false c).1, [(setMuteSyncOp false c).2])
            else (c, [])
          else (c, [])
        ({ q.1 with lastStatus := some s.status }, q.2)
      else (c, [])
    match s.volume with
    | some v =>
      if p1.1.lastVolume ≠ some v then
        ({ p1.1 with lastVolume := some v }, p1.2 ++ setVolumeOps v p1.1)
      else p1
    | none => p1

/-- handleStateChange of src/index.js: nothing without a device; mute on
play to non-play, unmute on non-play to play when the engine does not report
mute, remember the status unconditionally; re-apply a changed numeric
volume; finally, whenever the delivered state carries a boolean mute flag,
call setMute with it unconditionally. -/
def handleStateChangeIdx (c : Ctrl) (s : PlayerState) : Ctrl × List Op :=
  if c.deviceFound = false then (c, [])
  else
    let p1 : Ctrl × List Op :=
      if s.status ≠ "play" ∧ c.lastStatus = some "play" then
        ((setMuteOp true c).1, [(setMuteOp true c).2])
      else if s.status = "play" ∧ c.lastStatus ≠ some "play" then
        if s.mute.getD false = false then
          ((setMuteOp false c).1, [(setMuteOp false c).2])
        else (c, [])
      else (c, [])
    let c1 : Ctrl := { p1.1 with lastStatus := some s.status }
    let p2 : Ctrl × List Op :=
      match s.volume with
      | some v =>
        if c1.lastVolume ≠ some v then
          ({ c1 with lastVolume := some v }, p1.2 ++ setVolumeOpsIdx v c1)
        else (c1, p1.2)
      | none => (c1, p1.2)
    match s.mute with
    | some m => ((setMuteOp m p2.1).1, p2.2 ++ [(setMuteOp m p2.1).2])
    | none => p2

/-! Event semantics of the part_000 revision. -/

/-- External events driving the part_000 controller: an intercepted
volumioSeek call; the firing of the armed seek-unmute timer, carrying the
engine state volumioGetState returns at that moment; the volumioupdatevolume
callback, carrying the volume, the optional mute flag and the engine state
its mute path reads; and a pushState delivery. -/
inductive Ev where
  | seek : Int → Ev
  | seekTimer : Option PlayerState → Ev
  | volumeCb : Int → Option Bool → Option PlayerState → Ev
  | push : PlayerState → Ev
deriving DecidableEq

/-- One event of the part_000 controller, returning the next state and the
operations executed, in order.  seek: the wrapper installed by
installSeekIntercept pre-mutes synchronously when the device is present and
seekMuteMs is positive, forwards the seek, then arms the unmute timer.
seekTimer: the timer is no longer pending and unmutes only when the engine
reports playing and not muted.  volumeCb: a changed volume is re-applied and
remembered; a boolean mute flag is forwarded to setMuteSync only when the
engine reports playing.  push: handleStateChange. -/
def stepEv (c : Ctrl) : Ev → Ctrl × List Op
  | Ev.seek pos =>
    if c.deviceFound = true ∧ 0 < c.seekMuteMs then
      ({ (setMuteSyncOp true c).1 with seekTimerPending := true },
       [(setMuteSyncOp true c).2, Op.forwardSeek pos, Op.armUnmuteTimer])
    else (c, [Op.forwardSeek pos])
  | Ev.seekTimer eng =>
    let c0 : Ctrl := { c with seekTimerPending := false }
    match eng with
    | some st =>
      if st.status = "play" ∧ st.mute.getD false = false then
        ((setMuteSyncOp false c0).1, [(setMuteSyncOp false c0).2])
      else (c0, [])
    | none => (c0, [])
  | Ev.volumeCb vol mute eng =>
    let p1 : Ctrl × List Op :=
      if c.lastVolume ≠ some vol then
        ({ c with lastVolume := some vol }, setVolumeOps vol c)
      else (c, [])
    match mute with
    | some m =>
      match eng with
      | some st =>
        if st.status = "play" then
          ((setMuteSyncOp m p1.1).1, p1.2 ++ [(setMuteSyncOp m p1.1).2])
        else p1
      | none => p1
    | none => p1
  | Ev.push s => handleStateChangeP0 c s

/-- Run a list of events, accumulating the executed operations. -/
def runTrace (c : Ctrl) : List Ev → Ctrl × List Op
  | [] => (c, [])
  | e :: tr =>
    let p := stepEv c e
    let q := runTrace p.1 tr
    (q.1, p.2 ++ q.2)

/-! Claim C2: the mute bit versus the three mute intents. -/

/-- Trace for claim C2: a seek is intercepted (the seek-mute intent becomes
active: the hardware is muted and the unmute timer is armed), then a user
unmute arrives through the volume callback while the engine reports playing,
inside the seek-mute window. -/
def seekThenUserUnmute : List Ev :=
  [Ev.seek 60000,
   Ev.volumeCb 50 (some false)
     (some { status := "play", volume := some 50, mute := some false })]

/-- Claim C2 violation, evaluated on the code: after the intercepted seek the
hardware mute bit is set; the user unmute that follows clears the hardware
mute bit even though the seek-mute intent is still active (the armed unmute
timer has not fired), so at that instant the mute bit is false while the OR
of the intents is true.  The volume callback guards its setMuteSync call only
by status being play — during a seek the status is play, so the guard does
not protect the seek-mute window, although the source comments it with
"don't override seek mute". -/
theorem C2_violation :
    (runTrace startCtrl [Ev.seek 60000]).1.reg7.testBit 0 = true ∧
    (runTrace startCtrl seekThenUserUnmute).1.seekTimerPending = true ∧
    (runTrace startCtrl seekThenUserUnmute).1.reg7.testBit 0 = false := by
  decide

/-! Claim C3: pre-emptive synchronous seek mute. -/

/-- Claim C3: for every controller state with the device present and a
positive seek-mute duration, the operations executed by the installed seek
wrapper are exactly the synchronous (blocking, hence completed on return)
register-7 mute write, then the forwarding of the original seek, then the
arming of the unmute timer — so the mute write completes before the original
seek function is invoked and before the wrapped call returns, pre-emptively
rather than in reaction to a later state-change event. -/
theorem C3_seek_premute (c : Ctrl) (pos : Int)
    (hf : c.deviceFound = true) (hm : 0 < c.seekMuteMs) :
    (stepEv c (Ev.seek pos)).2 =
      [Op.writeSync 7 (Int.ofNat (applyMuteBit true c.reg7)),
       Op.forwardSeek pos, Op.armUnmuteTimer] := by
  simp [stepEv, setMuteSyncOp, hf, hm]

/-- Witness for C3 at the startup state and seek position 12345. -/
theorem C3_seek_premute_witness :
    startCtrl.deviceFound = true ∧ 0 < startCtrl.seekMuteMs ∧
    (stepEv startCtrl (Ev.seek 12345)).2 =
      [Op.writeSync 7 (Int.ofNat (applyMuteBit true startCtrl.reg7)),
       Op.forwardSeek 12345, Op.armUnmuteTimer] :=
  ⟨rfl, by decide, C3_seek_premute startCtrl 12345 rfl (by decide)⟩

/-! Claim C7: de-duplication of repeated state deliveries. -/

theorem hscP0_second_noop (c : Ctrl) (s : PlayerState)
    (h1 : c.lastStatus = some s.status)
    (h2 : ∀ v, s.volume = some v → c.lastVolume = some v) :
    (handleStateChangeP0 c s).2 = [] := by
  unfold handleStateChangeP0
  by_cases hf : c.deviceFound = false
  · simp [hf]
  · rw [if_neg hf]
    have hne : ¬(c.lastStatus ≠ some s.status) := by simp [h1]
    rcases hv : s.volume with _ | v
    · simp [hne]
    · have hlv := h2 v hv
      simp [hne, hv, hlv]

theorem hscP0_state (c : Ctrl) (s : PlayerState) (hf : c.deviceFound = true) :
    ((handleStateChangeP0 c s).1).lastStatus = some s.status ∧
    (∀ v, s.volume = some v → ((handleStateChangeP0 c s).1).lastVolume = some v) := by
  unfold handleStateChangeP0
  rw [if_neg (by simp [hf])]
  rcases hv : s.volume with _ | v <;>
    simp only [hv] <;> split_ifs <;> simp_all [setMuteSyncOp]

theorem hscIdx_found (c : Ctrl) (s : PlayerState) :
    ((handleStateChangeIdx c s).1).deviceFound = c.deviceFound := by
  unfold handleStateChangeIdx
  rcases hv : s.volume with _ | v <;> rcases hm : s.mute with _ | m <;>
    simp only [hv, hm] <;> split_ifs <;> simp_all [setMuteOp]

theorem hscIdx_state (c : Ctrl) (s : PlayerState) (hf : c.deviceFound = true) :
    ((handleStateChangeIdx c s).1).lastStatus = some s.status ∧
    (∀ v, s.volume = some v → ((handleStateChangeIdx c s).1).lastVolume = some v) := by
  unfold handleStateChangeIdx
  rw [if_neg (by simp [hf])]
  rcases hv : s.volume with _ | v <;> rcases hm : s.mute with _ | m <;>
    simp only [hv, hm] <;> split_ifs <;> simp_all [setMuteOp]

theorem hscIdx_second (c : Ctrl) (s : PlayerState)
    (hf : c.deviceFound = true)
    (h1 : c.lastStatus = some s.status)
    (h2 : ∀ v, s.volume = some v → c.lastVolume = some v) :
    (handleStateChangeIdx c s).2 =
      (match s.mute with
       | some m => [Op.write 7 (Int.ofNat (applyMuteBit m c.reg7))]
       | none => []) := by
  unfold handleStateChangeIdx
  rw [if_neg (by simp [hf])]
  have hg1 : ¬(s.status ≠ "play" ∧ c.lastStatus = some "play") := by
    rintro ⟨hne, heq⟩
    rw [h1] at heq
    exact hne (Option.some_injective _ heq)
  have hg2 : ¬(s.status = "play" ∧ c.lastStatus ≠ some "play") := by
    rintro ⟨he, hne⟩
    rw [h1, he] at hne
    exact hne rfl
  rcases hv : s.volume with _ | v <;> rcases hm : s.mute with _ | m <;>
    simp_all [setMuteOp, hg1, hg2]

/-- State delivered twice in a row for the C7 counterexample. -/
def repeatedState : PlayerState :=
  { status := "play", volume := some 50, mute := some false }

/-- Claim C7 counterexample: in the src/index.js handler, delivering the same
state (status play, volume 50, mute false) twice in a row still produces a
hardware register write on the second delivery: the unconditional trailing
setMute re-issues the register-7 write (value 0x80), so the two deliveries
produce two writes of that register, not one. -/
theorem C7_counterexample :
    (handleStateChangeIdx (handleStateChangeIdx startCtrl repeatedState).1
        repeatedState).2 = [Op.write 7 128] ∧
    (handleStateChangeIdx (handleStateChangeIdx startCtrl repeatedState).1
        repeatedState).2 ≠ [] := by
  decide

/-- Claim C7 (amended): delivering the same state twice in a row triggers no
hardware write on the second delivery in the part_000 handler (status and
volume are both de-duplicated).  In the src/index.js handler the second
delivery likewise triggers no status or volume write, but when the delivered
state carries a boolean mute flag its trailing unconditional setMute
re-issues exactly one register-7 write (counterexample above). -/
theorem C7_amended (c : Ctrl) (s : PlayerState) :
    (handleStateChangeP0 (handleStateChangeP0 c s).1 s).2 = [] ∧
    ∃ v : Int,
      (handleStateChangeIdx (handleStateChangeIdx c s).1 s).2 =
        if c.deviceFound = true ∧ s.mute.isSome then [Op.write 7 v] else [] := by
  constructor
  · by_cases hf : c.deviceFound = false
    · have e : handleStateChangeP0 c s = (c, []) := by
        unfold handleStateChangeP0
        rw [if_pos hf]
      rw [e]
      unfold handleStateChangeP0
      rw [if_pos hf]
    · have hf' : c.deviceFound = true := by
        revert hf
        cases c.deviceFound <;> simp
      have h := hscP0_state c s hf'
      exact hscP0_second_noop _ s h.1 h.2
  · by_cases hf : c.deviceFound = false
    · refine ⟨0, ?_⟩
      have e : handleStateChangeIdx c s = (c, []) := by
        unfold handleStateChangeIdx
        rw [if_pos hf]
      rw [e]
      unfold handleStateChangeIdx
      rw [if_pos hf, if_neg (by simp [hf])]
    · have hf' : c.deviceFound = true := by
        revert hf
        cases c.deviceFound <;> simp
      have hfd : ((handleStateChangeIdx c s).1).deviceFound = true := by
        rw [hscIdx_found, hf']
      have h := hscIdx_state c s hf'
      have h2 := hscIdx_second (handleStateChangeIdx c s).1 s hfd h.1 h.2
      rcases hm : s.mute with _ | m
      · refine ⟨0, ?_⟩
        rw [h2, hm]
        simp [hf', hm]
      · refine ⟨Int.ofNat (applyMuteBit m ((handleStateChangeIdx c s).1).reg7), ?_⟩
        rw [h2, hm]
        simp [hf', hm]

end ES9018K2M
